import Mathlib

/-!
Verification of the MCP host (`mcp-host.py`, `app.py`): a shallow embedding of
the connection/session lifecycle manager and the streaming tool-dispatch loop,
with theorems settling the specification's claims about it.

Conventions of the embedding:
* Python strings are Lean `String`s; Python dicts keyed by strings are
  association lists consulted in insertion order.
* The network is an oracle: the outcome of each `session.call_tool` round trip
  is supplied by a function `Nat → Except CallErr String` (indexed by how many
  invocation round trips have been performed so far), and the model API's
  streamed responses are supplied as lists of `StreamEvent`s.
* An uncaught Python exception is `Except.error`; a caught one is handled in
  the branch that catches it.
-/

namespace Host

/-! ## Transport (`mcp-host.py` lines 21-69)

`Transport.__init__` stores the command, args and env and creates an empty
`AsyncExitStack`; `connect` pushes the stdio context onto the stack and sets
`stdio`/`write`; `cleanup` (lines 65-69) sets `stdio`/`write` to `None` and
closes the exit stack, which releases and empties its held resources. -/

structure Transport where
  command : String
  args : List String
  env : List (String × String)
  stdio : Option Unit
  write : Option Unit
  exit_stack : List Unit
deriving Repr, DecidableEq

/-- `Transport.__init__` (lines 24-37): no stream yet, empty exit stack. -/
def Transport.init (command : String) (args : List String)
    (env : List (String × String)) : Transport :=
  { command := command, args := args, env := env,
    stdio := none, write := none, exit_stack := [] }

/-- `Transport.cleanup` (lines 65-69): `self.stdio = None`, `self.write = None`,
`await self.exit_stack.aclose()` (closing an `AsyncExitStack` pops and releases
every held resource, leaving the stack empty). -/
def Transport.cleanup (t : Transport) : Transport :=
  { t with stdio := none, write := none, exit_stack := [] }

/-! ## Client tools and `Client.call_tool` (`mcp-host.py` lines 144-172)

The fields of an MCP `Tool` that the host reads (`get_all_tools`, line 284). -/

structure Tool where
  name : String
  description : String
  inputSchema : String
deriving Repr, DecidableEq

/-- The classes of exception `call_tool` can see: `ValueError` raised by the
client-side availability check (lines 160-162), `ConnectionError` (the only
class retried, line 168), and any other exception (re-raised, line 172). -/
inductive CallErr
  | capabilityNotFound (msg : String)
  | connectionError (msg : String)
  | otherError (msg : String)
deriving Repr, DecidableEq

/-- `Client.call_tool` (lines 144-172).  `server_name` and `available_tools`
are the client's fields; `invoke n` is the outcome of the `(n+1)`-st
`self.session.call_tool(tool_name, tool_args)` round trip.  The two `Nat`s
returned count (a) invocation round trips performed and (b) recovery cycles
(cleanup + reconnect, lines 169-170) performed.  `ensure_connected` (line 158)
is modelled as succeeding: its round trips establish the connection and are
not invocation round trips.  After the availability check fails no round trip
happens; on `ConnectionError` the call is retried exactly once after one
recovery cycle, and whatever the retry produces is returned as is; any other
exception is re-raised at once. -/
def call_tool (server_name : String) (available_tools : List Tool)
    (tool_name : String) (invoke : Nat → Except CallErr String) :
    Except CallErr String × Nat × Nat :=
  if available_tools.any (fun tool => tool.name == tool_name) then
    match invoke 0 with
    | .ok r => (.ok r, 1, 0)
    | .error (.connectionError _) =>
      (match invoke 1 with
       | .ok r => (.ok r, 2, 1)
       | .error e2 => (.error e2, 2, 1))
    | .error e => (.error e, 1, 0)
  else
    (.error (.capabilityNotFound
        ("Tool " ++ tool_name ++ " not available on server " ++ server_name)), 0, 0)

/-! ## `Client.start` as an interleaving model (`mcp-host.py` lines 88-128)

`start` runs: `if self.is_connected: return` (line 104), then
`async with self._reconnect_lock:` (line 107, an await point at which other
tasks run), then the connect/handshake/list body (lines 110-118, one or more
await points), then the lock release.  Each program point between awaits is
one atomic step; a scheduler (a list of task indices) picks which task steps
next.  A task at `acquireLock` whose lock is held stays put (it is awaiting
the lock). -/

/-- `Client.is_connected` (lines 88-91). -/
def is_connected (session : Bool) (is_stopping : Bool) : Bool :=
  session && !is_stopping

inductive StartPc
  | checkConnected
  | acquireLock
  | connectBody
  | releaseLock
  | done
deriving Repr, DecidableEq

structure StartSys where
  session : Bool
  is_stopping : Bool
  lockHeld : Bool
  connectAttempts : Nat
  pcs : List StartPc
deriving Repr, DecidableEq

/-- One atomic step of task `i` running `Client.start`.  `connectBody` models
lines 110-118 succeeding: one `transport.connect()` attempt is made and the
session is (re)established.  There is no re-check of `is_connected` after the
lock is acquired, exactly as in the source. -/
def startStep (sys : StartSys) (i : Nat) : StartSys :=
  match sys.pcs.get? i with
  | none => sys
  | some pc =>
    match pc with
    | .checkConnected =>
      if is_connected sys.session sys.is_stopping then
        { sys with pcs := sys.pcs.set i .done }
      else
        { sys with pcs := sys.pcs.set i .acquireLock }
    | .acquireLock =>
      if sys.lockHeld then sys
      else { sys with lockHeld := true, pcs := sys.pcs.set i .connectBody }
    | .connectBody =>
      { sys with session := true, connectAttempts := sys.connectAttempts + 1,
                 pcs := sys.pcs.set i .releaseLock }
    | .releaseLock =>
      { sys with lockHeld := false, pcs := sys.pcs.set i .done }
    | .done => sys

def runSchedule (sys : StartSys) : List Nat → StartSys
  | [] => sys
  | i :: rest => runSchedule (startStep sys i) rest

/-- Two tasks both entering `start()` on a disconnected, non-stopping Session. -/
def startInitTwo : StartSys :=
  { session := false, is_stopping := false, lockHeld := false,
    connectAttempts := 0, pcs := [.checkConnected, .checkConnected] }

/-! ## ConnectionManager (`mcp-host.py` lines 174-297) -/

structure Server where
  name : String
  command : String
  args : List String
deriving Repr, DecidableEq

/-- The observable state of a `Client` as stored in the registry. -/
structure ClientState where
  server_name : String
  available_tools : List Tool
  session : Bool
deriving Repr, DecidableEq

/-- The `McpConnection` triple (lines 189-193). -/
structure McpConnection where
  server : Server
  client : ClientState
  transport : Transport
deriving Repr, DecidableEq

/-- The exceptions `add_connection` raises: `ValueError` for a duplicate name
(line 223) and the `ConnectionError` propagated out of `client.start()`
(line 231). -/
inductive AddError
  | duplicateServer (msg : String)
  | connectionError (msg : String)
deriving Repr, DecidableEq

/-- Dict membership / lookup on `self.connections`. -/
def lookupConn (connections : List (String × McpConnection)) (server_name : String) :
    Option McpConnection :=
  match connections with
  | [] => none
  | (n, c) :: rest => if n = server_name then some c else lookupConn rest server_name

/-- `ConnectionManager.add_connection` (lines 203-242), run under the registry
lock.  `startResult` is the outcome of `client.start()`: `.ok tools` means the
session came up with `tools` fetched, `.error e` means `start` raised
`ConnectionError e`.  The function returns the raised exception (if any)
together with the registry mapping after the call: on either failure the
mapping is returned untouched, and only on success is the new entry inserted
(Python dicts preserve insertion order, hence the append). -/
def add_connection (connections : List (String × McpConnection))
    (server_name command : String) (args : List String)
    (env : List (String × String)) (startResult : Except String (List Tool)) :
    Except AddError Unit × List (String × McpConnection) :=
  match lookupConn connections server_name with
  | some _ =>
    (.error (.duplicateServer ("Connection to " ++ server_name ++ " already exists")),
     connections)
  | none =>
    match startResult with
    | .error e => (.error (.connectionError e), connections)
    | .ok tools =>
      let server : Server := { name := server_name, command := command, args := args }
      let transport : Transport :=
        { command := command, args := args, env := env,
          stdio := some (), write := some (), exit_stack := [()] }
      let client : ClientState :=
        { server_name := server_name, available_tools := tools, session := true }
      (.ok (), connections ++ [(server_name, ⟨server, client, transport⟩)])

/-! ## Tool catalog (`mcp-host.py` lines 311-328) and composite-key parsing -/

structure FormattedTool where
  name : String
  description : String
  input_schema : String
deriving Repr, DecidableEq

/-- `LLMManager._format_tools_for_llm` (lines 311-328): for every server, for
every tool, one entry named `f"{server_name}_{tool.name}"` with the
description prefixed by `[{server_name}]` and the schema passed through. -/
def format_tools_for_llm (server_tools : List (String × List Tool)) :
    List FormattedTool :=
  (server_tools.map (fun p =>
    p.2.map (fun tool =>
      { name := p.1 ++ "_" ++ tool.name,
        description := "[" ++ p.1 ++ "] " ++ tool.description,
        input_schema := tool.inputSchema }))).flatten

/-- Split a character list at the first occurrence of `sep`; `none` when `sep`
does not occur. -/
def splitOnFirst (sep : Char) : List Char → Option (List Char × List Char)
  | [] => none
  | c :: rest =>
    if c = sep then some ([], rest)
    else
      match splitOnFirst sep rest with
      | some (a, b) => some (c :: a, b)
      | none => none

/-- `name.split(sep, 1)` destructured into two parts, as in
`server_name, tool_name = event.tool_calls[0].name.split('_', 1)`
(`mcp-host.py` line 375): `some` of the parts around the first underscore,
`none` when the name has no underscore (in which case the Python unpacking of
a one-element list raises `ValueError`). -/
def split_tool_name (key : String) : Option (String × String) :=
  match splitOnFirst '_' key.data with
  | some (a, b) => some (String.mk a, String.mk b)
  | none => none

/-! ## The orchestration loop (`LLMManager.process_query`, lines 330-422) -/

structure Turn where
  role : String
  content : String
deriving Repr, DecidableEq

inductive Delta
  | textDelta (text : String)
  | otherDelta
deriving Repr, DecidableEq

/-- One element of `event.tool_calls`; `parameters` is the rendered argument
map as it is interpolated into strings and passed to `call_tool`. -/
structure ToolCallData where
  name : String
  parameters : String
deriving Repr, DecidableEq

/-- The streamed events the source dispatches on (lines 357-373). -/
inductive StreamEvent
  | messageStart
  | contentBlockStart
  | contentBlockDelta (delta : Delta)
  | contentBlockStop
  | messageStop
  | toolUse (tool_calls : List ToolCallData)
deriving Repr, DecidableEq

/-- The environment of a query: `call server tool params` is the combined
outcome of `self.connection_manager.get_client(server)` followed by
`client.call_tool(tool, params)` (lines 378-379); `.error msg` is any
exception caught at line 417, with `msg` its `str(e)`. -/
structure ToolEnv where
  call : String → String → String → Except String String

/-- The loop's mutable state (lines 339, 352-354), plus the queue `conts` of
continuation streams the model API will answer with: each successful tool call
issues one continuation request (lines 401-406) and consumes the head of the
queue (an exhausted queue yields the empty stream). -/
structure OrchState where
  messages : List Turn
  tool_results : List (String × String × String)
  final_text : List String
  current_text : String
  conts : List (List StreamEvent)
deriving Repr, DecidableEq

/-- The inner `async for next_event in stream` loop over a continuation stream
(lines 408-411): only `content_block_delta` events whose delta is a
`text_delta` contribute, appended onto `current_text`; every other event is
ignored. -/
def consumeTextDeltas (events : List StreamEvent) (acc : String) : String :=
  match events with
  | [] => acc
  | .contentBlockDelta (.textDelta t) :: rest => consumeTextDeltas rest (acc ++ t)
  | _ :: rest => consumeTextDeltas rest acc

/-- `if current_text: final_text.append(current_text); current_text = ""`
(lines 366-368, 370-372, 413-415). -/
def flushOutput (st : OrchState) : OrchState :=
  if st.current_text = "" then st
  else { st with final_text := st.final_text ++ [st.current_text], current_text := "" }

/-- Processing of one event of the outer stream (lines 356-420).  The
`tool_use` branch follows the source exactly: index `tool_calls[0]` (an empty
list raises `IndexError`, uncaught), split its name on the first underscore
(no underscore: the unpacking raises `ValueError`, uncaught), then inside the
`try`: resolve and invoke; on success append the `[Called ...]` segment,
append an assistant turn when `current_text` is non-empty (without clearing
`current_text`), append the user turn carrying `str(result.content)`, consume
the continuation stream for text deltas, and flush; on any caught exception
append only the inline error segment. -/
def processEvent (env : ToolEnv) (st : OrchState) :
    StreamEvent → Except String OrchState
  | .messageStart => .ok st
  | .contentBlockStart => .ok st
  | .contentBlockDelta (.textDelta t) =>
    .ok { st with current_text := st.current_text ++ t }
  | .contentBlockDelta .otherDelta => .ok st
  | .contentBlockStop => .ok (flushOutput st)
  | .messageStop => .ok (flushOutput st)
  | .toolUse [] => .error "IndexError: list index out of range"
  | .toolUse (tc :: _) =>
    match split_tool_name tc.name with
    | none => .error "ValueError: not enough values to unpack"
    | some (server_name, tool_name) =>
      match env.call server_name tool_name tc.parameters with
      | .ok result =>
        let tool_result_text :=
          "\n[Called " ++ server_name ++ "." ++ tool_name ++ " with args "
            ++ tc.parameters ++ "]\n"
        let st1 := { st with
          tool_results := st.tool_results ++ [(server_name, tool_name, result)],
          final_text := st.final_text ++ [tool_result_text] }
        let st2 :=
          if st1.current_text = "" then st1
          else { st1 with messages := st1.messages ++ [Turn.mk "assistant" st1.current_text] }
        let st3 := { st2 with messages := st2.messages ++ [Turn.mk "user" result] }
        let st4 := { st3 with
          conts := st3.conts.tail,
          current_text := consumeTextDeltas (st3.conts.headD []) st3.current_text }
        .ok (flushOutput st4)
      | .error e =>
        .ok { st with final_text := st.final_text ++
          ["\nError calling " ++ server_name ++ "." ++ tool_name ++ ": " ++ e] }

/-- The outer `async for event in stream` loop.  Rebinding `stream` inside the
body (line 401) does not change what the outer loop iterates over, so the
remaining events of the original stream are processed after each tool call. -/
def runStream (env : ToolEnv) : List StreamEvent → OrchState → Except String OrchState
  | [], st => .ok st
  | e :: rest, st =>
    match processEvent env st e with
    | .error m => .error m
    | .ok st2 => runStream env rest st2

/-- `LLMManager.process_query` (lines 330-422) up to its final join: the state
after consuming the initial stream, starting from
`messages = [{"role": "user", "content": query}]` and empty buffers. -/
def process_query_state (env : ToolEnv) (conts : List (List StreamEvent))
    (query : String) (stream : List StreamEvent) : Except String OrchState :=
  runStream env stream
    { messages := [⟨"user", query⟩], tool_results := [], final_text := [],
      current_text := "", conts := conts }

/-- `process_query` proper: `"\n".join(final_text)` (line 422). -/
def process_query (env : ToolEnv) (conts : List (List StreamEvent))
    (query : String) (stream : List StreamEvent) : Except String String :=
  (process_query_state env conts query stream).map
    (fun st => String.intercalate "\n" st.final_text)

/-! ## Concrete fixtures used by witnesses and counterexamples -/

/-- A tool environment whose every call succeeds with content `RESULT`. -/
def envOk : ToolEnv := { call := fun _ _ _ => Except.ok "RESULT" }

/-- A tool environment whose every call raises with message `boom`. -/
def envFail : ToolEnv := { call := fun _ _ _ => Except.error "boom" }

def tcWeather : ToolCallData := { name := "weather_forecast", parameters := "city=Boston" }

/-- Initial stream: a tool call, then end of message. -/
def streamToolThenStop : List StreamEvent := [.toolUse [tcWeather], .messageStop]

/-- Continuation streams: the single continuation itself carries a further
tool call followed by a text delta. -/
def contsWithToolCall : List (List StreamEvent) :=
  [[.toolUse [tcWeather], .contentBlockDelta (.textDelta "hi")]]

/-- Initial stream: buffered text, then a tool call. -/
def streamTextThenTool : List StreamEvent :=
  [.contentBlockDelta (.textDelta "Hello"), .toolUse [tcWeather]]

def forecastTool : Tool :=
  { name := "forecast", description := "Get the forecast", inputSchema := "schema" }

/-- Invocation oracle: first round trip drops the connection, the retry
succeeds. -/
def invRetryOk : Nat → Except CallErr String :=
  fun n => if n = 0 then .error (.connectionError "connection dropped") else .ok "sunny"

def weatherConn : McpConnection :=
  { server := { name := "weather", command := "python", args := ["weather.py"] },
    client := { server_name := "weather", available_tools := [forecastTool], session := true },
    transport := { command := "python", args := ["weather.py"], env := [],
                   stdio := some (), write := some (), exit_stack := [()] } }

def orchStart : OrchState :=
  { messages := [⟨"user", "q"⟩], tool_results := [], final_text := [],
    current_text := "", conts := [] }

/-! ## Helper lemmas -/

theorem string_data_append (s t : String) : (s ++ t).data = s.data ++ t.data := by
  cases s; cases t; rfl

theorem string_mk_data (s : String) : String.mk s.data = s := rfl

theorem splitOnFirst_append_sep (sep : Char) (s c : List Char) (hs : sep ∉ s) :
    splitOnFirst sep (s ++ sep :: c) = some (s, c) := by
  induction s with
  | nil => simp [splitOnFirst]
  | cons a as ih =>
    have ha : ¬ a = sep := fun h => hs (by simp [h])
    have has : sep ∉ as := fun h => hs (List.mem_cons_of_mem _ h)
    simp [splitOnFirst, ha, ih has]

/-- Splitting `<s>_<c>` on the first underscore recovers `(s, c)` whenever `s`
itself has no underscore. -/
theorem split_tool_name_append (s c : String) (hs : '_' ∉ s.data) :
    split_tool_name (s ++ "_" ++ c) = some (s, c) := by
  unfold split_tool_name
  have h1 : (s ++ "_" ++ c).data = s.data ++ '_' :: c.data := by
    rw [string_data_append, string_data_append]
    show (s.data ++ ['_']) ++ c.data = s.data ++ '_' :: c.data
    simp
  rw [h1, splitOnFirst_append_sep '_' s.data c.data hs]

/-- The continuation-stream consumer ignores a `toolUse` event wherever it
occurs. -/
theorem consumeTextDeltas_append_toolUse (pre post : List StreamEvent)
    (calls : List ToolCallData) (acc : String) :
    consumeTextDeltas (pre ++ StreamEvent.toolUse calls :: post) acc =
      consumeTextDeltas (pre ++ post) acc := by
  induction pre generalizing acc with
  | nil => simp [consumeTextDeltas]
  | cons e rest ih =>
    cases e with
    | messageStart => simpa [consumeTextDeltas] using ih acc
    | contentBlockStart => simpa [consumeTextDeltas] using ih acc
    | contentBlockDelta d =>
      cases d with
      | textDelta t => simpa [consumeTextDeltas] using ih (acc ++ t)
      | otherDelta => simpa [consumeTextDeltas] using ih acc
    | contentBlockStop => simpa [consumeTextDeltas] using ih acc
    | messageStop => simpa [consumeTextDeltas] using ih acc
    | toolUse cs => simpa [consumeTextDeltas] using ih acc

/-! ## Claims -/

/-- C1 (counterexample): the claim says the orchestrator processes the
continuation sub-stream by the same rules, resolving and invoking any further
`ToolCall` events it carries.  Concretely: the initial stream carries one tool
call, the continuation stream returned by the model carries a further tool
call; were the claim true, two tool invocations would be recorded.  The code
records exactly one — the inner loop over the continuation stream reads only
text deltas and never dispatches on `tool_use`. -/
theorem c1_sub_stream_tool_call_not_invoked :
    (process_query_state envOk contsWithToolCall "q" streamToolThenStop).map
        (fun st => st.tool_results.length) = Except.ok 1 ∧
    (process_query_state envOk contsWithToolCall "q" streamToolThenStop).map
        (fun st => st.tool_results.length) ≠ Except.ok 2 := by
  refine ⟨rfl, fun h => ?_⟩
  have h1 : (process_query_state envOk contsWithToolCall "q" streamToolThenStop).map
      (fun st => st.tool_results.length) = Except.ok 1 := rfl
  rw [h1] at h
  injection h with h2
  exact absurd h2 (by decide)

/-- C1 (amended): after a successful `ToolCall` the orchestrator opens a new
streamed response for the updated turn sequence, but that sub-stream is
consumed only for its text deltas: a further `ToolCall` event carried anywhere
inside the sub-stream is ignored — deleting it from the sub-stream leaves the
entire outcome of the step unchanged. -/
theorem c1_continuation_consumed_text_only (env : ToolEnv) (st : OrchState)
    (tc : ToolCallData) (rest : List ToolCallData) (pre post : List StreamEvent)
    (calls : List ToolCallData) (cs : List (List StreamEvent)) (s t r : String)
    (hsplit : split_tool_name tc.name = some (s, t))
    (hok : env.call s t tc.parameters = Except.ok r) :
    processEvent env { st with conts := (pre ++ StreamEvent.toolUse calls :: post) :: cs }
        (StreamEvent.toolUse (tc :: rest)) =
      processEvent env { st with conts := (pre ++ post) :: cs }
        (StreamEvent.toolUse (tc :: rest)) := by
  simp only [processEvent, hsplit, hok]
  by_cases h : st.current_text = "" <;>
    simp [h, flushOutput, consumeTextDeltas_append_toolUse]

/-- C1 (witness for the amended claim): a continuation stream carrying a tool
call followed by a text delta produces the same step outcome as the
continuation stream with the tool call removed. -/
theorem c1_witness :
    processEvent envOk
        { orchStart with conts := [[StreamEvent.toolUse [tcWeather],
            StreamEvent.contentBlockDelta (Delta.textDelta "hi")]] }
        (StreamEvent.toolUse [tcWeather]) =
      processEvent envOk
        { orchStart with conts := [[StreamEvent.contentBlockDelta (Delta.textDelta "hi")]] }
        (StreamEvent.toolUse [tcWeather]) :=
  c1_continuation_consumed_text_only envOk orchStart tcWeather [] []
    [StreamEvent.contentBlockDelta (Delta.textDelta "hi")] [tcWeather] []
    "weather" "forecast" "RESULT" rfl rfl

/-- C2 (code-bug exhibit): the claim says buffered text is flushed as an
assistant turn before the tool call is acted on, the flush empties the buffer,
and no piece of buffered text is ever emitted twice.  Running the code on a
stream that buffers `Hello` and then issues a successful tool call (with an
empty continuation stream) shows `Hello` appearing BOTH as the assistant
turn's content AND again as an output segment: the source appends the
assistant turn without clearing `current_text` (lines 390-394), so the stale
buffer is flushed a second time into `final_text` after the continuation
stream (lines 413-415). -/
theorem c2_buffered_text_emitted_twice :
    process_query_state envOk [[]] "q" streamTextThenTool =
      Except.ok
        { messages := [Turn.mk "user" "q", Turn.mk "assistant" "Hello",
            Turn.mk "user" "RESULT"],
          tool_results := [("weather", "forecast", "RESULT")],
          final_text := ["\n[Called weather.forecast with args city=Boston]\n", "Hello"],
          current_text := "", conts := [] } := by
  rfl

/-- C3 (code-bug exhibit): two tasks call `start()` on a disconnected Session
and both evaluate `if self.is_connected` (line 104) before either reaches
`async with self._reconnect_lock` (line 107).  The lock serializes the bodies,
but connectedness is not re-checked after acquisition, so the second task runs
the full connect body again: the schedule below drives two
`transport.connect()` attempts, where the claim requires exactly one. -/
theorem c3_two_connect_attempts :
    (runSchedule startInitTwo [0, 1, 0, 0, 0, 1, 1, 1]).connectAttempts = 2 ∧
    (runSchedule startInitTwo [0, 1, 0, 0, 0, 1, 1, 1]).pcs =
      [StartPc.done, StartPc.done] := by
  exact ⟨rfl, rfl⟩

/-- C4: a tool call whose first round trip fails with a connectivity error is
retried after exactly one recovery cycle and the retry's outcome — success or
second failure — is returned unchanged with no third round trip; a
non-connectivity failure propagates at once with no recovery cycle. -/
theorem c4_retry_once (server : String) (tools : List Tool) (name : String)
    (invoke : Nat → Except CallErr String)
    (hmem : tools.any (fun tool => tool.name == name) = true) :
    (∀ m r, invoke 0 = Except.error (CallErr.connectionError m) →
        invoke 1 = Except.ok r →
        call_tool server tools name invoke = (Except.ok r, 2, 1)) ∧
    (∀ m e2, invoke 0 = Except.error (CallErr.connectionError m) →
        invoke 1 = Except.error e2 →
        call_tool server tools name invoke = (Except.error e2, 2, 1)) ∧
    (∀ e, (∀ m, e ≠ CallErr.connectionError m) → invoke 0 = Except.error e →
        call_tool server tools name invoke = (Except.error e, 1, 0)) := by
  refine ⟨?_, ?_, ?_⟩
  · intro m r h0 h1
    simp [call_tool, hmem, h0, h1]
  · intro m e2 h0 h1
    simp [call_tool, hmem, h0, h1]
  · intro e he h0
    cases e with
    | capabilityNotFound m => simp [call_tool, hmem, h0]
    | connectionError m => exact absurd rfl (he m)
    | otherError m => simp [call_tool, hmem, h0]

/-- C4 (witness): first round trip drops the connection, the retry succeeds
with `sunny`: the call returns `sunny` after 2 round trips and 1 recovery
cycle. -/
theorem c4_witness :
    call_tool "weather" [forecastTool] "forecast" invRetryOk =
      (Except.ok "sunny", 2, 1) :=
  (c4_retry_once "weather" [forecastTool] "forecast" invRetryOk (by decide)).1
    "connection dropped" "sunny" rfl rfl

/-- C5: for every registered server `s` (underscore-free) and every cached
tool of that server, the catalog emits the composite key `s_tool`, and
splitting any such key on the first underscore routes back to `(s, tool)`. -/
theorem c5_composite_key_roundtrip (server_tools : List (String × List Tool))
    (s : String) (ts : List Tool) (tool : Tool)
    (hmem : (s, ts) ∈ server_tools) (ht : tool ∈ ts) (hs : '_' ∉ s.data) :
    (∃ ft ∈ format_tools_for_llm server_tools, ft.name = s ++ "_" ++ tool.name) ∧
    split_tool_name (s ++ "_" ++ tool.name) = some (s, tool.name) := by
  constructor
  · refine ⟨FormattedTool.mk (s ++ "_" ++ tool.name)
        ("[" ++ s ++ "] " ++ tool.description) tool.inputSchema, ?_, rfl⟩
    unfold format_tools_for_llm
    rw [List.mem_flatten]
    exact ⟨_, List.mem_map_of_mem _ hmem, List.mem_map_of_mem _ ht⟩
  · exact split_tool_name_append s tool.name hs

/-- C5 (witness): server `weather` with capability `forecast` emits key
`weather_forecast`, which resolves back to server `weather`, capability
`forecast`. -/
theorem c5_witness :
    (∃ ft ∈ format_tools_for_llm [("weather", [forecastTool])],
        ft.name = "weather" ++ "_" ++ forecastTool.name) ∧
    split_tool_name ("weather" ++ "_" ++ forecastTool.name) =
      some ("weather", forecastTool.name) :=
  c5_composite_key_roundtrip [("weather", [forecastTool])] "weather" [forecastTool]
    forecastTool (by decide) (by decide) (by decide)

/-- C6: `add_connection` with an already-registered name fails with the
duplicate-server error and returns the registry unchanged (the previously
registered connection included); when the new Session's `start()` fails, the
connection error propagates and the registry is returned with no entry for
that name. -/
theorem c6_add_connection_atomic (connections : List (String × McpConnection))
    (server_name command : String) (args : List String)
    (env : List (String × String)) (startResult : Except String (List Tool)) :
    (∀ c, lookupConn connections server_name = some c →
        add_connection connections server_name command args env startResult =
          (Except.error (AddError.duplicateServer
              ("Connection to " ++ server_name ++ " already exists")), connections)) ∧
    (lookupConn connections server_name = none →
      ∀ e, startResult = Except.error e →
        add_connection connections server_name command args env startResult =
          (Except.error (AddError.connectionError e), connections)) := by
  constructor
  · intro c hc
    simp [add_connection, hc]
  · intro hnone e he
    simp [add_connection, hnone, he]

/-- C6 (witness): re-adding `weather` fails with the duplicate error and
leaves the one-entry registry as it was; adding `news` whose `start()` raises
`spawn failed` propagates the connection error and registers nothing. -/
theorem c6_witness :
    (add_connection [("weather", weatherConn)] "weather" "python" ["weather.py"] []
        (Except.ok []) =
      (Except.error (AddError.duplicateServer
          ("Connection to " ++ "weather" ++ " already exists")),
       [("weather", weatherConn)])) ∧
    (add_connection [] "news" "python" ["news.py"] [] (Except.error "spawn failed") =
      (Except.error (AddError.connectionError "spawn failed"), [])) :=
  ⟨(c6_add_connection_atomic [("weather", weatherConn)] "weather" "python"
      ["weather.py"] [] (Except.ok [])).1 weatherConn rfl,
   (c6_add_connection_atomic [] "news" "python" ["news.py"] []
      (Except.error "spawn failed")).2 rfl "spawn failed" rfl⟩

/-- C7: a capability name absent from the client's cached tool list fails with
the capability-not-found error after zero invocation round trips — the check
is client-side against `_available_tools` and the session is never asked to
invoke. -/
theorem c7_capability_not_found (server : String) (tools : List Tool)
    (name : String) (invoke : Nat → Except CallErr String)
    (habs : tools.any (fun tool => tool.name == name) = false) :
    call_tool server tools name invoke =
      (Except.error (CallErr.capabilityNotFound
          ("Tool " ++ name ++ " not available on server " ++ server)), 0, 0) := by
  simp [call_tool, habs]

/-- C7 (witness): asking the weather client for `alerts` when only `forecast`
is cached fails client-side with zero invocation round trips. -/
theorem c7_witness :
    call_tool "weather" [forecastTool] "alerts" invRetryOk =
      (Except.error (CallErr.capabilityNotFound
          ("Tool " ++ "alerts" ++ " not available on server " ++ "weather")), 0, 0) :=
  c7_capability_not_found "weather" [forecastTool] "alerts" invRetryOk (by decide)

/-- C8: when resolving-and-invoking a tool call raises, the orchestrator
appends exactly the inline segment `"\nError calling <server>.<tool>: <msg>"`
to the output, leaves the turn sequence (and all other state) untouched, and
carries on with the remaining events of the stream. -/
theorem c8_tool_error_annotated_no_turn (env : ToolEnv) (st : OrchState)
    (tc : ToolCallData) (rest : List ToolCallData) (evs : List StreamEvent)
    (s t e : String)
    (hsplit : split_tool_name tc.name = some (s, t))
    (herr : env.call s t tc.parameters = Except.error e) :
    runStream env (StreamEvent.toolUse (tc :: rest) :: evs) st =
      runStream env evs
        { st with final_text :=
            st.final_text ++ ["\nError calling " ++ s ++ "." ++ t ++ ": " ++ e] } := by
  simp only [runStream, processEvent, hsplit, herr]

/-- C8 (witness): a failing weather call appends the inline error segment for
`weather.forecast` with message `boom` and nothing else. -/
theorem c8_witness :
    runStream envFail [StreamEvent.toolUse [tcWeather]] orchStart =
      runStream envFail []
        { orchStart with final_text :=
            orchStart.final_text ++
              ["\nError calling " ++ "weather" ++ "." ++ "forecast" ++ ": " ++ "boom"] } :=
  c8_tool_error_annotated_no_turn envFail orchStart tcWeather [] []
    "weather" "forecast" "boom" rfl rfl

/-- C9: `Transport.cleanup` run twice produces exactly the state of running it
once, and running it on a freshly initialized transport (before any
`connect`) is a no-op — in both cases no error is possible, the model being a
total function. -/
theorem c9_transport_cleanup_idempotent :
    (∀ t : Transport, Transport.cleanup (Transport.cleanup t) = Transport.cleanup t) ∧
    (∀ (command : String) (args : List String) (env : List (String × String)),
      Transport.cleanup (Transport.init command args env) =
        Transport.init command args env) :=
  ⟨fun _ => rfl, fun _ _ _ => rfl⟩

/-- C10: processing a `tool_use` event depends only on the first element of
its tool-call list: the whole remaining query run is identical to the run in
which the event carried that first call alone, so the extra calls are neither
executed nor annotated nor turned into conversation turns. -/
theorem c10_only_first_tool_call (env : ToolEnv) (st : OrchState)
    (tc : ToolCallData) (rest : List ToolCallData) (evs : List StreamEvent) :
    runStream env (StreamEvent.toolUse (tc :: rest) :: evs) st =
      runStream env (StreamEvent.toolUse [tc] :: evs) st := rfl

end Host
